import Mathlib

/-!
# InvoiceFin — verification of the invoice-financing decision engine

Shallow embedding of the core logic of the InvoiceFin repository:

* `src/server/polygon.ts` — the off-chain financing-terms calculator
  (`calculateFinancingAmount`), modelled over `ℚ` with JavaScript's
  `Math.round`-based 2-decimal rounding made explicit.
* `src/server/routes.ts` — the `verify`, `finance` and `repay` route handlers,
  modelled as pure functions of the records they read and write.
* `InvoiceFinanceManager.sol` — the on-chain financing orchestrator
  (`calculateFinancingTerms`, `finance`, `repay`), with the registry and the
  pool balance inlined into one chain state; `uint256` arithmetic is `Nat`
  with Solidity's flooring division, and `revert` is `Except.error` leaving
  the pre-state untouched.
* `LiquidityPool.sol` — share-based pool accounting (`deposit`, `withdraw`).
-/

namespace InvoiceFin

/-! ## Off-chain financing calculator — `src/server/polygon.ts`

`Math.round x` for the non-negative magnitudes that occur here is
`⌊x + 1/2⌋`; `Math.round (x * 100) / 100` is the 2-decimal rounding the
source applies to money amounts. -/

/-- JavaScript `Math.round`: round half away from zero toward `+∞`. -/
def jsRound (x : ℚ) : ℤ := ⌊x + 1 / 2⌋

/-- Rounding to 2 decimal places: `Math.round (x * 100) / 100`. -/
def round2 (x : ℚ) : ℚ := (jsRound (x * 100) : ℚ) / 100

/-- Return type of `calculateFinancingAmount` in `src/server/polygon.ts`. -/
structure FinancingQuote where
  amount : ℚ
  percentage : ℤ
  fee : ℚ
deriving DecidableEq, Repr

/-- Function `calculateFinancingAmount` from `src/server/polygon.ts` (lines 249-269):
`percentage = 0.70 + (riskScore / 100) * 0.10`, `amount = invoiceAmount *
percentage`, `fee = amount * 0.015`, returning the rounded
`amount - fee`, the whole-percent rate, and the rounded fee. -/
def calculateFinancingAmount (invoiceAmount riskScore : ℚ) : FinancingQuote :=
  let basePercentage : ℚ := 70 / 100
  let maxBonus : ℚ := 10 / 100
  let riskBonus : ℚ := riskScore / 100 * maxBonus
  let percentage : ℚ := basePercentage + riskBonus
  let amount : ℚ := invoiceAmount * percentage
  let fee : ℚ := amount * (15 / 1000)
  { amount := round2 (amount - fee)
    percentage := jsRound (percentage * 100)
    fee := round2 fee }

/-! ## On-chain financing — `InvoiceFinanceManager.sol` with `InvoiceRegistry.sol`

`uint256`/`uint8` values are `Nat`; Solidity division floors, matching `Nat`
division.  The registry's invoice mapping and the pool's token balance are
inlined into one `ChainState`; a `require` failure is `Except.error`, and
since a revert rolls back every write, an erroring call returns no state. -/

/-- Enum `InvoiceRegistry.Status`. -/
inductive Status where
  | pending
  | financed
  | repaid
  | defaulted
  | cancelled
deriving DecidableEq, Repr

/-- Struct `InvoiceRegistry.Invoice` (the fields the finance manager reads or
writes; `address`es are `Nat`, with `0` as the zero address). -/
structure Invoice where
  seller : Nat
  buyer : Nat
  faceValue : Nat
  advanceAmount : Nat
  advanceRate : Nat
  feeAmount : Nat
  dueDate : Nat
  financedAt : Nat
  repaidAt : Nat
  riskScore : Nat
  status : Status
deriving Repr

/-- The finance manager's financing parameters (basis points), with their
declared initial values as defaults. -/
structure Params where
  baseAdvanceRate : Nat := 7000
  maxAdvanceRate : Nat := 8000
  baseFeeRate : Nat := 150
  minRiskScore : Nat := 30
  maxPoolUtilization : Nat := 8000
  maxSingleInvoice : Nat := 1000
deriving Repr

/-- The deployed parameter values of `InvoiceFinanceManager`. -/
def defaultParams : Params := {}

/-- Combined state of registry, manager bookkeeping and pool balance. -/
structure ChainState where
  invoices : Nat → Invoice
  invoiceFinanced : Nat → Bool
  poolBalance : Nat
  totalFinanced : Nat
  totalRepaid : Nat
  totalFees : Nat

/-- Revert reasons of the finance manager's `finance` and `repay` paths
(including the requires of `registry.markFinanced`, `markRepaid` and
`pool.transferForFinancing` that they call). -/
inductive FinErr where
  | invoiceNotFound
  | invalidStatus
  | riskTooLow
  | alreadyFinanced
  | exceedsSingleLimit
  | exceedsUtilization
  | insufficientPoolFunds
  | notFinanced
  | amountZero
  | insufficientRepayment
deriving DecidableEq, Repr

/-- Function `InvoiceFinanceManager.calculateFinancingTerms` (lines 183-207):
risk-anchored linear interpolation of the advance rate between
`baseAdvanceRate` (at `minRiskScore`) and `maxAdvanceRate` (at 100),
then `advanceAmount = faceValue * advanceRate / 10000` with the fee
(`baseFeeRate` of the gross advance) deducted from the advance.
Returns `(advanceAmount, advanceRate, feeAmount)`. -/
def calculateFinancingTerms (p : Params) (faceValue riskScore : Nat) :
    Nat × Nat × Nat :=
  let riskRange := 100 - p.minRiskScore
  let rateRange := p.maxAdvanceRate - p.baseAdvanceRate
  let advanceRate :=
    if 100 ≤ riskScore then p.maxAdvanceRate
    else if riskScore ≤ p.minRiskScore then p.baseAdvanceRate
    else
      let riskAboveMin := riskScore - p.minRiskScore
      p.baseAdvanceRate + riskAboveMin * rateRange / riskRange
  let advanceAmount := faceValue * advanceRate / 10000
  let feeAmount := advanceAmount * p.baseFeeRate / 10000
  (advanceAmount - feeAmount, advanceRate, feeAmount)

/-- Pointwise map update, for the registry's invoice mapping. -/
def setInvoice (f : Nat → Invoice) (id : Nat) (inv : Invoice) : Nat → Invoice :=
  fun j => if j = id then inv else f j

/-- Pointwise map update, for the manager's `invoiceFinanced` mapping. -/
def setFinancedFlag (f : Nat → Bool) (id : Nat) (b : Bool) : Nat → Bool :=
  fun j => if j = id then b else f j

/-- Function `InvoiceFinanceManager.finance` (lines 105-134), with
`registry.markFinanced` and `pool.transferForFinancing` inlined: checks
invoice existence, `Pending` status, the risk floor, the
`invoiceFinanced` guard and both pool exposure caps, then marks the
invoice financed and debits the pool by the advance. -/
def finance (p : Params) (s : ChainState) (invoiceId now : Nat) :
    Except FinErr ChainState :=
  let inv := s.invoices invoiceId
  if inv.seller = 0 then .error .invoiceNotFound
  else if inv.status ≠ Status.pending then .error .invalidStatus
  else if inv.riskScore < p.minRiskScore then .error .riskTooLow
  else if s.invoiceFinanced invoiceId then .error .alreadyFinanced
  else
    let t := calculateFinancingTerms p inv.faceValue inv.riskScore
    let advanceAmount := t.1
    let advanceRate := t.2.1
    let feeAmount := t.2.2
    if s.poolBalance * p.maxSingleInvoice / 10000 < advanceAmount then
      .error .exceedsSingleLimit
    else if s.poolBalance * p.maxPoolUtilization / 10000 < advanceAmount then
      .error .exceedsUtilization
    else if s.poolBalance < advanceAmount then .error .insufficientPoolFunds
    else
      .ok { s with
        invoiceFinanced := setFinancedFlag s.invoiceFinanced invoiceId true
        totalFinanced := s.totalFinanced + advanceAmount
        totalFees := s.totalFees + feeAmount
        invoices := setInvoice s.invoices invoiceId
          { inv with
            advanceAmount := advanceAmount
            advanceRate := advanceRate
            feeAmount := feeAmount
            financedAt := now
            status := Status.financed }
        poolBalance := s.poolBalance - advanceAmount }

/-- Function `InvoiceFinanceManager.repay` (lines 141-160), with
`registry.markRepaid` and the transfer into the pool inlined: legal only
from `Financed`, for a positive amount at least
`advanceAmount + feeAmount`; credits the pool and marks the invoice
repaid. -/
def repay (s : ChainState) (invoiceId amount now : Nat) :
    Except FinErr ChainState :=
  let inv := s.invoices invoiceId
  if inv.status ≠ Status.financed then .error .notFinanced
  else if amount = 0 then .error .amountZero
  else
    let requiredRepayment := inv.advanceAmount + inv.feeAmount
    if amount < requiredRepayment then .error .insufficientRepayment
    else
      .ok { s with
        totalRepaid := s.totalRepaid + amount
        poolBalance := s.poolBalance + amount
        invoices := setInvoice s.invoices invoiceId
          { inv with repaidAt := now, status := Status.repaid } }

/-- Extract the result of a successful call, with a fallback default. -/
def okOr {ε α : Type} (r : Except ε α) (d : α) : α :=
  match r with
  | .ok a => a
  | .error _ => d

/-- The error of a failed call, if any. -/
def errOf {ε α : Type} (r : Except ε α) : Option ε :=
  match r with
  | .ok _ => none
  | .error e => some e

/-- Whether a call succeeded. -/
def isOk {ε α : Type} (r : Except ε α) : Bool :=
  match r with
  | .ok _ => true
  | .error _ => false

/-! ## Share-based pool accounting — `LiquidityPool.sol`

`balance` is `asset.balanceOf(address(this))`; the token transfers at the
end of `deposit`/`withdraw` become the final balance update. -/

/-- Revert reasons of `LiquidityPool.deposit` and `LiquidityPool.withdraw`. -/
inductive PoolErr where
  | amountTooSmall
  | zeroShares
  | insufficientShares
  | zeroAmount
  | insufficientPoolBalance
deriving DecidableEq, Repr

/-- Constant `MIN_DEPOSIT = 1e15` (0.001 token with 18 decimals). -/
def MIN_DEPOSIT : Nat := 1000000000000000

/-- State of `LiquidityPool`: total shares, per-address shares and deposit
timestamps, the pool's token balance, and the cumulative counters. -/
structure PoolState where
  totalShares : Nat
  shares : Nat → Nat
  depositTimestamp : Nat → Nat
  balance : Nat
  totalDeposited : Nat
  totalWithdrawn : Nat

/-- The share amount `LiquidityPool.deposit` mints for `amount` against the
pre-transfer pool balance (lines 297-304): `amount` itself on an empty
pool (1:1 bootstrap), else `amount * totalShares / poolBalance`, floored. -/
def mintedShares (s : PoolState) (amount : Nat) : Nat :=
  if s.totalShares = 0 ∨ s.balance = 0 then amount
  else amount * s.totalShares / s.balance

/-- Function `LiquidityPool.deposit` (lines 294-316): requires
`amount ≥ MIN_DEPOSIT` and a positive share mint, then mints shares,
records the deposit and pulls `amount` tokens into the pool. -/
def deposit (s : PoolState) (user amount now : Nat) :
    Except PoolErr PoolState :=
  if amount < MIN_DEPOSIT then .error .amountTooSmall
  else
    let sharesToMint := mintedShares s amount
    if sharesToMint = 0 then .error .zeroShares
    else
      .ok { s with
        totalShares := s.totalShares + sharesToMint
        shares := fun u => if u = user then s.shares u + sharesToMint else s.shares u
        depositTimestamp := fun u => if u = user then now else s.depositTimestamp u
        totalDeposited := s.totalDeposited + amount
        balance := s.balance + amount }

/-- Function `LiquidityPool.withdraw` (lines 322-339): burns `shareAmount` of the
caller's shares for the proportional, floored slice
`shareAmount * poolBalance / totalShares` of the pool balance. -/
def withdraw (s : PoolState) (user shareAmount : Nat) :
    Except PoolErr PoolState :=
  if shareAmount = 0 then .error .zeroShares
  else if s.shares user < shareAmount then .error .insufficientShares
  else
    let amountToWithdraw := shareAmount * s.balance / s.totalShares
    if amountToWithdraw = 0 then .error .zeroAmount
    else if s.balance < amountToWithdraw then .error .insufficientPoolBalance
    else
      .ok { s with
        shares := fun u => if u = user then s.shares u - shareAmount else s.shares u
        totalShares := s.totalShares - shareAmount
        totalWithdrawn := s.totalWithdrawn + amountToWithdraw
        balance := s.balance - amountToWithdraw }

/-! ## Server route handlers — `src/server/routes.ts`

The `verify`, `finance` and `repay` handlers are modelled as pure
functions of the records they read (`storage.getInvoice`,
`storage.getBusinessByWallet`) and of the external AI assessment, returning
either an HTTP-level error or the updated records.  Database writes by
`storage.updateInvoice` become the returned invoice value. -/

/-- Invoice status strings used by the server (`shared/schema` comment:
pending, verified, financed, repaid, rejected, defaulted). -/
inductive SStatus where
  | pending
  | verified
  | financed
  | repaid
  | rejected
  | defaulted
deriving DecidableEq, Repr

/-- Field `recommendation` of a `RiskAssessmentResult` (`src/server/gemini.ts`). -/
inductive Recommendation where
  | approve
  | review
  | reject
deriving DecidableEq, Repr

/-- The slice of `RiskAssessmentResult` the routes consume. -/
structure RiskAssessment where
  overallScore : Nat
  recommendation : Recommendation
deriving DecidableEq, Repr

/-- The server-side invoice record (the columns the verify/finance routes
read or write; `amount` is the decimal face value). -/
structure SInvoice where
  businessId : Nat
  amount : ℚ
  status : SStatus
  aiRiskScore : Option Nat
  aiVerificationResult : Option RiskAssessment
  financedAmount : Option ℚ
  financedAt : Option Nat
  repaidAt : Option Nat
deriving DecidableEq, Repr

/-- Error responses of the routes. -/
inductive RouteErr where
  | notFound
  | notAuthorized
  | mustBeVerified
deriving DecidableEq, Repr

/-- Handler of `POST /api/invoices/:id/verify` (`src/server/routes.ts` lines 231-278):
after the existence and ownership checks it stores the assessment and sets
`status` to `rejected` iff the recommendation is `reject`, else
`verified` — the current status is never consulted. -/
def verifyRoute (invoice : Option SInvoice) (businessId : Option Nat)
    (risk : RiskAssessment) : Except RouteErr SInvoice :=
  match invoice, businessId with
  | none, _ => .error .notFound
  | _, none => .error .notFound
  | some inv, some bid =>
    if inv.businessId ≠ bid then .error .notAuthorized
    else
      .ok { inv with
        aiRiskScore := some risk.overallScore
        aiVerificationResult := some risk
        status := if risk.recommendation = Recommendation.reject
          then SStatus.rejected else SStatus.verified }

/-- The `invoice.aiRiskScore || 50` fallback in the finance route
(`src/server/routes.ts` line 302): JavaScript `||` replaces every falsy
value — both `null` and `0` — with 50. -/
def effectiveRiskScore (aiRiskScore : Option Nat) : Nat :=
  match aiRiskScore with
  | none => 50
  | some n => if n = 0 then 50 else n

/-- Handler of `POST /api/invoices/:id/finance` (`src/server/routes.ts` lines
281-342): requires the invoice to exist, belong to the caller and be
`verified`; computes terms with `calculateFinancingAmount` at the
fallback-defaulted risk score and marks the invoice financed.  Returns
the updated invoice and the financing quote. -/
def financeRoute (invoice : Option SInvoice) (businessId : Option Nat)
    (now : Nat) : Except RouteErr (SInvoice × FinancingQuote) :=
  match invoice, businessId with
  | none, _ => .error .notFound
  | _, none => .error .notFound
  | some inv, some bid =>
    if inv.businessId ≠ bid then .error .notAuthorized
    else if inv.status ≠ SStatus.verified then .error .mustBeVerified
    else
      let riskScore := effectiveRiskScore inv.aiRiskScore
      let financing := calculateFinancingAmount inv.amount (riskScore : ℚ)
      .ok ({ inv with
          status := SStatus.financed
          financedAmount := some financing.amount
          financedAt := some now }, financing)

/-! ## Theorems -/

/-- The advance rate computed by `calculateFinancingTerms`. -/
def advanceRateOf (p : Params) (faceValue riskScore : Nat) : Nat :=
  (calculateFinancingTerms p faceValue riskScore).2.1

/-- C10: for every `faceValue` and every `riskScore` (also outside
`[0,100]`), the on-chain `calculateFinancingTerms` returns an advance rate
clamped to `[baseAdvanceRate, maxAdvanceRate]`: it is `maxAdvanceRate` for
`riskScore ≥ 100`, `baseAdvanceRate` for `riskScore ≤ minRiskScore`, and
otherwise linearly interpolated anchored at `minRiskScore`, not at 0. -/
theorem calculateFinancingTerms_rate_clamped (p : Params)
    (faceValue riskScore : Nat)
    (hbm : p.baseAdvanceRate ≤ p.maxAdvanceRate)
    (hmr : p.minRiskScore < 100) :
    p.baseAdvanceRate ≤ advanceRateOf p faceValue riskScore ∧
    advanceRateOf p faceValue riskScore ≤ p.maxAdvanceRate ∧
    (100 ≤ riskScore → advanceRateOf p faceValue riskScore = p.maxAdvanceRate) ∧
    (riskScore ≤ p.minRiskScore →
      advanceRateOf p faceValue riskScore = p.baseAdvanceRate) ∧
    (p.minRiskScore < riskScore → riskScore < 100 →
      advanceRateOf p faceValue riskScore =
        p.baseAdvanceRate +
          (riskScore - p.minRiskScore) *
            (p.maxAdvanceRate - p.baseAdvanceRate) / (100 - p.minRiskScore)) := by
  have hrate : advanceRateOf p faceValue riskScore =
      if 100 ≤ riskScore then p.maxAdvanceRate
      else if riskScore ≤ p.minRiskScore then p.baseAdvanceRate
      else p.baseAdvanceRate +
        (riskScore - p.minRiskScore) *
          (p.maxAdvanceRate - p.baseAdvanceRate) / (100 - p.minRiskScore) := rfl
  by_cases h1 : 100 ≤ riskScore
  · rw [hrate, if_pos h1]
    exact ⟨hbm, le_rfl, fun _ => rfl, fun h2 => by omega, fun _ h3 => by omega⟩
  · by_cases h2 : riskScore ≤ p.minRiskScore
    · rw [hrate, if_neg h1, if_pos h2]
      exact ⟨le_rfl, hbm, fun h => absurd h h1, fun _ => rfl,
        fun h3 _ => by omega⟩
    · rw [hrate, if_neg h1, if_neg h2]
      have hdiv : (riskScore - p.minRiskScore) *
          (p.maxAdvanceRate - p.baseAdvanceRate) / (100 - p.minRiskScore) ≤
          p.maxAdvanceRate - p.baseAdvanceRate :=
        calc (riskScore - p.minRiskScore) *
              (p.maxAdvanceRate - p.baseAdvanceRate) / (100 - p.minRiskScore)
            ≤ (100 - p.minRiskScore) *
              (p.maxAdvanceRate - p.baseAdvanceRate) / (100 - p.minRiskScore) :=
              Nat.div_le_div_right (Nat.mul_le_mul_right _ (by omega))
          _ = p.maxAdvanceRate - p.baseAdvanceRate :=
              Nat.mul_div_cancel_left _ (by omega)
      have hub : p.baseAdvanceRate +
          (riskScore - p.minRiskScore) *
            (p.maxAdvanceRate - p.baseAdvanceRate) / (100 - p.minRiskScore) ≤
          p.maxAdvanceRate :=
        calc p.baseAdvanceRate +
              (riskScore - p.minRiskScore) *
                (p.maxAdvanceRate - p.baseAdvanceRate) / (100 - p.minRiskScore)
            ≤ p.baseAdvanceRate + (p.maxAdvanceRate - p.baseAdvanceRate) :=
              Nat.add_le_add_left hdiv _
          _ = p.maxAdvanceRate := by omega
      refine ⟨Nat.le_add_right _ _, hub, fun h => absurd h h1,
        fun h => absurd h h2, fun _ _ => rfl⟩

/-- Witness for C10 at the deployed parameters, `faceValue = 10000`,
`riskScore = 50`. -/
theorem calculateFinancingTerms_rate_clamped_w :
    defaultParams.baseAdvanceRate ≤ advanceRateOf defaultParams 10000 50 ∧
    advanceRateOf defaultParams 10000 50 ≤ defaultParams.maxAdvanceRate ∧
    (100 ≤ 50 → advanceRateOf defaultParams 10000 50 = defaultParams.maxAdvanceRate) ∧
    (50 ≤ defaultParams.minRiskScore →
      advanceRateOf defaultParams 10000 50 = defaultParams.baseAdvanceRate) ∧
    (defaultParams.minRiskScore < 50 → 50 < 100 →
      advanceRateOf defaultParams 10000 50 =
        defaultParams.baseAdvanceRate +
          (50 - defaultParams.minRiskScore) *
            (defaultParams.maxAdvanceRate - defaultParams.baseAdvanceRate) /
            (100 - defaultParams.minRiskScore)) :=
  calculateFinancingTerms_rate_clamped defaultParams 10000 50
    (by decide) (by decide)

/-- An invoice record with every field zeroed (the registry's default). -/
def emptyInvoice : Invoice :=
  { seller := 0, buyer := 0, faceValue := 0, advanceAmount := 0
    advanceRate := 0, feeAmount := 0, dueDate := 0, financedAt := 0
    repaidAt := 0, riskScore := 0, status := Status.pending }

/-- Scenario state for the exposure caps: a pool of 1,000,000 and one
pending invoice whose advance works out to exactly 150,000
(`faceValue = 190355`, `riskScore = 100`, so the gross advance is
80% = 152,284 and the fee 2,284). -/
def capState : ChainState :=
  { invoices := setInvoice (fun _ => emptyInvoice) 1
      { emptyInvoice with
        seller := 1
        buyer := 2
        faceValue := 190355
        riskScore := 100 }
    invoiceFinanced := fun _ => false
    poolBalance := 1000000
    totalFinanced := 0
    totalRepaid := 0
    totalFees := 0 }

/-- C5: both exposure caps are checked against the live pool balance at
financing time: on an invoice that passes every earlier guard, `finance`
rejects with the single-invoice-cap error whenever the advance exceeds
`poolBalance * maxSingleInvoice / 10000`, rejects with the utilization-cap
error whenever it exceeds `poolBalance * maxPoolUtilization / 10000`, and
any successful call satisfies both caps.  A rejection returns no state,
modelling the revert that leaves invoice and pool unchanged. -/
theorem finance_checks_exposure_caps (p : Params) (s : ChainState)
    (id now : Nat)
    (h1 : (s.invoices id).seller ≠ 0)
    (h2 : (s.invoices id).status = Status.pending)
    (h3 : p.minRiskScore ≤ (s.invoices id).riskScore)
    (h4 : s.invoiceFinanced id = false) :
    (s.poolBalance * p.maxSingleInvoice / 10000 <
        (calculateFinancingTerms p (s.invoices id).faceValue
          (s.invoices id).riskScore).1 →
      finance p s id now = Except.error FinErr.exceedsSingleLimit) ∧
    ((calculateFinancingTerms p (s.invoices id).faceValue
        (s.invoices id).riskScore).1 ≤
        s.poolBalance * p.maxSingleInvoice / 10000 →
      s.poolBalance * p.maxPoolUtilization / 10000 <
        (calculateFinancingTerms p (s.invoices id).faceValue
          (s.invoices id).riskScore).1 →
      finance p s id now = Except.error FinErr.exceedsUtilization) ∧
    (∀ s', finance p s id now = Except.ok s' →
      (calculateFinancingTerms p (s.invoices id).faceValue
        (s.invoices id).riskScore).1 ≤
        s.poolBalance * p.maxSingleInvoice / 10000 ∧
      (calculateFinancingTerms p (s.invoices id).faceValue
        (s.invoices id).riskScore).1 ≤
        s.poolBalance * p.maxPoolUtilization / 10000) := by
  have hfin : finance p s id now =
      (if s.poolBalance * p.maxSingleInvoice / 10000 <
          (calculateFinancingTerms p (s.invoices id).faceValue
            (s.invoices id).riskScore).1 then
        Except.error FinErr.exceedsSingleLimit
      else if s.poolBalance * p.maxPoolUtilization / 10000 <
          (calculateFinancingTerms p (s.invoices id).faceValue
            (s.invoices id).riskScore).1 then
        Except.error FinErr.exceedsUtilization
      else if s.poolBalance <
          (calculateFinancingTerms p (s.invoices id).faceValue
            (s.invoices id).riskScore).1 then
        Except.error FinErr.insufficientPoolFunds
      else
        Except.ok { s with
          invoiceFinanced := setFinancedFlag s.invoiceFinanced id true
          totalFinanced := s.totalFinanced +
            (calculateFinancingTerms p (s.invoices id).faceValue
              (s.invoices id).riskScore).1
          totalFees := s.totalFees +
            (calculateFinancingTerms p (s.invoices id).faceValue
              (s.invoices id).riskScore).2.2
          invoices := setInvoice s.invoices id
            { s.invoices id with
              advanceAmount := (calculateFinancingTerms p
                (s.invoices id).faceValue (s.invoices id).riskScore).1
              advanceRate := (calculateFinancingTerms p
                (s.invoices id).faceValue (s.invoices id).riskScore).2.1
              feeAmount := (calculateFinancingTerms p
                (s.invoices id).faceValue (s.invoices id).riskScore).2.2
              financedAt := now
              status := Status.financed }
          poolBalance := s.poolBalance -
            (calculateFinancingTerms p (s.invoices id).faceValue
              (s.invoices id).riskScore).1 }) := by
    unfold finance
    rw [if_neg h1, if_neg (by simp [h2]), if_neg (Nat.not_lt.mpr h3),
      if_neg (by simp [h4])]
  refine ⟨fun hc => by rw [hfin, if_pos hc], fun hna hc => ?_, fun s' hok => ?_⟩
  · rw [hfin, if_neg (Nat.not_lt.mpr hna), if_pos hc]
  · rw [hfin] at hok
    by_cases hA : s.poolBalance * p.maxSingleInvoice / 10000 <
        (calculateFinancingTerms p (s.invoices id).faceValue
          (s.invoices id).riskScore).1
    · rw [if_pos hA] at hok; exact absurd hok (by simp)
    · rw [if_neg hA] at hok
      by_cases hB : s.poolBalance * p.maxPoolUtilization / 10000 <
          (calculateFinancingTerms p (s.invoices id).faceValue
            (s.invoices id).riskScore).1
      · rw [if_pos hB] at hok; exact absurd hok (by simp)
      · exact ⟨Nat.not_lt.mp hA, Nat.not_lt.mp hB⟩

/-- Witness for C5: with `poolBalance = 1,000,000` and the deployed 10%
single-invoice cap, the 150,000 advance of `capState`'s invoice is
rejected with the single-invoice-cap error. -/
theorem finance_checks_exposure_caps_w :
    finance defaultParams capState 1 0 =
      Except.error FinErr.exceedsSingleLimit :=
  (finance_checks_exposure_caps defaultParams capState 1 0
    (by decide) (by decide) (by decide) (by decide)).1 (by decide)

/-- Scenario state for exactly-once financing: one pending invoice
(`faceValue = 10000`, `riskScore = 50`) against an ample pool. -/
def finState0 : ChainState :=
  { invoices := setInvoice (fun _ => emptyInvoice) 1
      { emptyInvoice with
        seller := 1
        buyer := 2
        faceValue := 10000
        riskScore := 50 }
    invoiceFinanced := fun _ => false
    poolBalance := 1000000
    totalFinanced := 0
    totalRepaid := 0
    totalFees := 0 }

/-- The state after the first successful `finance` call on `finState0`. -/
def finState1 : ChainState := okOr (finance defaultParams finState0 1 0) finState0

/-- C2 (amended): financing is exactly-once — a successful `finance` call
transitions the invoice to `Financed` and debits the pool by exactly the
advance once, and a second call on the resulting state reverts with the
invalid-status error (so it moves no funds and, reverting, leaves invoice
and pool unchanged). -/
theorem finance_exactly_once (p : Params) (s s' : ChainState)
    (id now now' : Nat) (h : finance p s id now = Except.ok s') :
    (s'.invoices id).status = Status.financed ∧
    s'.poolBalance + (s'.invoices id).advanceAmount = s.poolBalance ∧
    s'.totalFinanced = s.totalFinanced + (s'.invoices id).advanceAmount ∧
    finance p s' id now' = Except.error FinErr.invalidStatus := by
  simp only [finance] at h
  split at h
  · exact absurd h (by simp)
  split at h
  · exact absurd h (by simp)
  split at h
  · exact absurd h (by simp)
  split at h
  · exact absurd h (by simp)
  split at h
  · exact absurd h (by simp)
  split at h
  · exact absurd h (by simp)
  split at h
  · exact absurd h (by simp)
  rename_i hseller hstatus hrisk hflag hcap1 hcap2 hfunds
  injection h with h'
  subst h'
  refine ⟨by simp [setInvoice], ?_, ?_, ?_⟩
  · simp [setInvoice]
    omega
  · simp [setInvoice]
  · simp [finance, setInvoice, setFinancedFlag, hseller]

/-- Witness for C2 on the concrete scenario `finState0`: the first call
succeeds producing `finState1`, whose invoice is `Financed` with the pool
debited once; the second call fails with the invalid-status error. -/
theorem finance_exactly_once_w :
    (finState1.invoices 1).status = Status.financed ∧
    finState1.poolBalance + (finState1.invoices 1).advanceAmount =
      finState0.poolBalance ∧
    finState1.totalFinanced = finState0.totalFinanced +
      (finState1.invoices 1).advanceAmount ∧
    finance defaultParams finState1 1 5 =
      Except.error FinErr.invalidStatus :=
  finance_exactly_once defaultParams finState0 finState1 1 0 5 rfl

/-- C2 counterexample: the second `finance` call on an already-financed
invoice reverts with the invalid-status error, not the dedicated
already-financed error the claim names — the `invoiceFinanced` guard sits
behind the `Pending`-status check, which fails first. -/
theorem finance_double_error_cex :
    errOf (finance defaultParams finState1 1 5) =
      some FinErr.invalidStatus ∧
    some FinErr.invalidStatus ≠ some FinErr.alreadyFinanced ∧
    (finState1.invoices 1).status = Status.financed :=
  ⟨rfl, by decide, rfl⟩

/-- Scenario state for repayment: invoice 1 financed with
`advanceAmount = 7388` and `feeAmount = 112`, so full settlement
requires 7500. -/
def repayState : ChainState :=
  { invoices := setInvoice (fun _ => emptyInvoice) 1
      { emptyInvoice with
        seller := 1
        buyer := 2
        faceValue := 10000
        advanceAmount := 7388
        advanceRate := 7500
        feeAmount := 112
        riskScore := 50
        status := Status.financed }
    invoiceFinanced := setFinancedFlag (fun _ => false) 1 true
    poolBalance := 992612
    totalFinanced := 7388
    totalRepaid := 0
    totalFees := 112 }

/-- C3 (amended): `repay` is legal only from `Financed` and requires a
positive amount of at least `advanceAmount + feeAmount`: a non-`Financed`
invoice fails with the not-financed error, a zero amount with the
amount-must-be-positive error, a positive amount below the threshold with
the insufficient-repayment error — each a revert that mutates nothing —
and an amount meeting the threshold credits the pool, sets `repaidAt` and
transitions the invoice to `Repaid`. -/
theorem repay_requires_full_settlement (s : ChainState)
    (id amount now : Nat) :
    ((s.invoices id).status ≠ Status.financed →
      repay s id amount now = Except.error FinErr.notFinanced) ∧
    ((s.invoices id).status = Status.financed → amount = 0 →
      repay s id amount now = Except.error FinErr.amountZero) ∧
    ((s.invoices id).status = Status.financed → 0 < amount →
      amount < (s.invoices id).advanceAmount + (s.invoices id).feeAmount →
      repay s id amount now = Except.error FinErr.insufficientRepayment) ∧
    ((s.invoices id).status = Status.financed → 0 < amount →
      (s.invoices id).advanceAmount + (s.invoices id).feeAmount ≤ amount →
      repay s id amount now = Except.ok { s with
        totalRepaid := s.totalRepaid + amount
        poolBalance := s.poolBalance + amount
        invoices := setInvoice s.invoices id
          { s.invoices id with repaidAt := now, status := Status.repaid } }) := by
  refine ⟨fun hns => ?_, fun hs hz => ?_, fun hs hpos hlt => ?_,
    fun hs hpos hge => ?_⟩
  · simp only [repay]
    rw [if_pos hns]
  · simp only [repay]
    rw [if_neg (by simp [hs]), if_pos hz]
  · simp only [repay]
    rw [if_neg (by simp [hs]), if_neg (by omega), if_pos hlt]
  · simp only [repay]
    rw [if_neg (by simp [hs]), if_neg (by omega),
      if_neg (Nat.not_lt.mpr hge)]

/-- Witness for C3 on `repayState` (settlement threshold 7500):
`repay 7499` fails with the insufficient-repayment error and `repay 7500`
succeeds, crediting the pool and marking the invoice `Repaid`. -/
theorem repay_requires_full_settlement_w :
    repay repayState 1 7499 9 =
      Except.error FinErr.insufficientRepayment ∧
    repay repayState 1 7500 9 = Except.ok { repayState with
      totalRepaid := repayState.totalRepaid + 7500
      poolBalance := repayState.poolBalance + 7500
      invoices := setInvoice repayState.invoices 1
        { repayState.invoices 1 with
          repaidAt := 9
          status := Status.repaid } } :=
  ⟨(repay_requires_full_settlement repayState 1 7499 9).2.2.1
      (by decide) (by decide) (by decide),
   (repay_requires_full_settlement repayState 1 7500 9).2.2.2
      (by decide) (by decide) (by decide)⟩

/-- C3 counterexample: amount 0 is below the 7500 settlement threshold,
yet the failure is the amount-must-be-positive error rather than the
insufficient-repayment error the claim asserts for every below-threshold
amount. -/
theorem repay_zero_amount_error_cex :
    errOf (repay repayState 1 0 9) = some FinErr.amountZero ∧
    some FinErr.amountZero ≠ some FinErr.insufficientRepayment ∧
    0 < (repayState.invoices 1).advanceAmount +
      (repayState.invoices 1).feeAmount :=
  ⟨rfl, by decide, by decide⟩

/-- C6 (amended): for every deposit of at least `MIN_DEPOSIT` whose share
mint is positive, `deposit` succeeds minting `amount` shares 1:1 when
`totalShares == 0 or poolBalance == 0` and
`floor(amount * totalShares / poolBalance)` shares otherwise (never
rounded up), increasing `totalShares` by the mint and the balance by
`amount`. -/
theorem deposit_mints_proportional (s : PoolState) (user amount now : Nat)
    (hmin : MIN_DEPOSIT ≤ amount) (hm : mintedShares s amount ≠ 0) :
    deposit s user amount now = Except.ok { s with
      totalShares := s.totalShares + mintedShares s amount
      shares := fun u => if u = user then s.shares u + mintedShares s amount
        else s.shares u
      depositTimestamp := fun u => if u = user then now
        else s.depositTimestamp u
      totalDeposited := s.totalDeposited + amount
      balance := s.balance + amount } ∧
    ((s.totalShares = 0 ∨ s.balance = 0) → mintedShares s amount = amount) ∧
    (¬(s.totalShares = 0 ∨ s.balance = 0) →
      mintedShares s amount = amount * s.totalShares / s.balance) := by
  refine ⟨?_, fun hb => ?_, fun hb => ?_⟩
  · simp only [deposit]
    rw [if_neg (Nat.not_lt.mpr hmin), if_neg hm]
  · unfold mintedShares
    rw [if_pos hb]
  · unfold mintedShares
    rw [if_neg hb]

/-- A pool holding 10^18 units against 10^18 shares (price per share 1). -/
def poolW : PoolState :=
  { totalShares := 1000000000000000000
    shares := fun u => if u = 3 then 1000000000000000000 else 0
    depositTimestamp := fun _ => 0
    balance := 1000000000000000000
    totalDeposited := 1000000000000000000
    totalWithdrawn := 0 }

/-- Witness for C6: depositing half the pool balance at price 1 mints
exactly the deposited amount of shares (the spec's 1000/500 scenario
scaled by 10^15 to clear `MIN_DEPOSIT`). -/
theorem deposit_mints_proportional_w :
    deposit poolW 7 500000000000000000 1 = Except.ok { poolW with
      totalShares := poolW.totalShares + mintedShares poolW 500000000000000000
      shares := fun u => if u = 7 then
          poolW.shares u + mintedShares poolW 500000000000000000
        else poolW.shares u
      depositTimestamp := fun u => if u = 7 then 1
        else poolW.depositTimestamp u
      totalDeposited := poolW.totalDeposited + 500000000000000000
      balance := poolW.balance + 500000000000000000 } ∧
    mintedShares poolW 500000000000000000 = 500000000000000000 :=
  ⟨(deposit_mints_proportional poolW 7 500000000000000000 1
      (by decide) (by decide)).1,
   by decide⟩

/-- An empty pool: no shares, no balance. -/
def emptyPool : PoolState :=
  { totalShares := 0
    shares := fun _ => 0
    depositTimestamp := fun _ => 0
    balance := 0
    totalDeposited := 0
    totalWithdrawn := 0 }

/-- C6 counterexample: the claim's own scenario `deposit(1000)` on an
empty pool does not mint 1000 shares — the call reverts with the
amount-too-small error because 1000 is below `MIN_DEPOSIT = 10^15`. -/
theorem deposit_1000_rejected_cex :
    errOf (deposit emptyPool 7 1000 0) = some PoolErr.amountTooSmall ∧
    1000 < MIN_DEPOSIT :=
  ⟨rfl, by decide⟩

/-- C7 (amended): on every pool state satisfying the documented pool
invariant (`totalShares == 0` implies `balance == 0`), depositing `x` and
then immediately withdrawing exactly the shares that deposit minted
returns at most `x`.  Without the invariant the bound fails: see the
counterexample, where a share-less pool with a donated balance hands the
depositor the whole balance on top of `x`. -/
theorem deposit_withdraw_roundtrip (s s₁ s₂ : PoolState)
    (user x now : Nat)
    (hinv : s.totalShares = 0 → s.balance = 0)
    (hdep : deposit s user x now = Except.ok s₁)
    (hwd : withdraw s₁ user (s₁.totalShares - s.totalShares) =
      Except.ok s₂) :
    s₁.balance - s₂.balance ≤ x := by
  simp only [deposit] at hdep
  split at hdep
  · exact absurd hdep (by simp)
  split at hdep
  · exact absurd hdep (by simp)
  rename_i hmin hm0
  injection hdep with h₁
  have hT : s₁.totalShares = s.totalShares + mintedShares s x := by
    rw [← h₁]
  have hB : s₁.balance = s.balance + x := by
    rw [← h₁]
  have hTm : 0 < s.totalShares + mintedShares s x := by
    rcases Nat.eq_zero_or_pos (mintedShares s x) with h | h
    · exact absurd h hm0
    · omega
  have hkey : mintedShares s x * (s.balance + x) ≤
      x * (s.totalShares + mintedShares s x) := by
    by_cases hb : s.totalShares = 0 ∨ s.balance = 0
    · have hmx : mintedShares s x = x := by
        unfold mintedShares
        rw [if_pos hb]
      rcases hb with h0 | h0
      · rw [hmx, h0, hinv h0]
      · rw [hmx, h0]
        exact Nat.mul_le_mul le_rfl (by omega)
    · have hmx : mintedShares s x = x * s.totalShares / s.balance := by
        unfold mintedShares
        rw [if_neg hb]
      have h1 : mintedShares s x * s.balance ≤ x * s.totalShares := by
        rw [hmx]
        exact Nat.div_mul_le_self _ _
      calc mintedShares s x * (s.balance + x)
          = mintedShares s x * s.balance + mintedShares s x * x := by ring
        _ ≤ x * s.totalShares + x * mintedShares s x :=
            Nat.add_le_add h1 (Nat.le_of_eq (Nat.mul_comm _ _))
        _ = x * (s.totalShares + mintedShares s x) := by ring
  have hfin : mintedShares s x * (s.balance + x) /
      (s.totalShares + mintedShares s x) ≤ x :=
    le_trans (Nat.div_le_div_right hkey)
      (le_of_eq (by rw [Nat.mul_comm]; exact Nat.mul_div_cancel_left _ hTm))
  rw [hT, Nat.add_sub_cancel_left] at hwd
  simp only [withdraw] at hwd
  split at hwd
  · exact absurd hwd (by simp)
  split at hwd
  · exact absurd hwd (by simp)
  split at hwd
  · exact absurd hwd (by simp)
  split at hwd
  · exact absurd hwd (by simp)
  rename_i hs0 hsuff hamt0 hbal
  injection hwd with h₂
  have hB2 : s₂.balance =
      s₁.balance - mintedShares s x * s₁.balance / s₁.totalShares := by
    rw [← h₂]
  have hout : mintedShares s x * s₁.balance / s₁.totalShares ≤ x := by
    rw [hB, hT]
    exact hfin
  rw [hB2]
  generalize hA : mintedShares s x * s₁.balance / s₁.totalShares = A
    at hout hbal ⊢
  omega

/-- A pool with 2·10^15 shares over a balance of 3·10^15. -/
def poolRT : PoolState :=
  { totalShares := 2000000000000000
    shares := fun u => if u = 3 then 2000000000000000 else 0
    depositTimestamp := fun _ => 0
    balance := 3000000000000000
    totalDeposited := 3000000000000000
    totalWithdrawn := 0 }

/-- The state after depositing 10^15 into `poolRT`. -/
def poolRT1 : PoolState := okOr (deposit poolRT 7 1000000000000000 4) poolRT

/-- The state after withdrawing exactly the shares that deposit minted. -/
def poolRT2 : PoolState :=
  okOr (withdraw poolRT1 7 (poolRT1.totalShares - poolRT.totalShares))
    poolRT1

/-- Witness for C7: the concrete deposit-then-withdraw round trip on
`poolRT` returns at most the 10^15 deposited. -/
theorem deposit_withdraw_roundtrip_w :
    poolRT1.balance - poolRT2.balance ≤ 1000000000000000 :=
  deposit_withdraw_roundtrip poolRT poolRT1 poolRT2 7 1000000000000000 4
    (by decide) rfl rfl

/-- A pool with a donated balance but zero shares — reachable by a direct
token transfer, or by a repayment arriving after all shares were
withdrawn; it violates the documented invariant `totalShares == 0 →
balance == 0`. -/
def donatedPool : PoolState :=
  { totalShares := 0
    shares := fun _ => 0
    depositTimestamp := fun _ => 0
    balance := 1000
    totalDeposited := 0
    totalWithdrawn := 0 }

/-- The state after depositing `MIN_DEPOSIT` into `donatedPool`. -/
def donatedPool1 : PoolState :=
  okOr (deposit donatedPool 7 MIN_DEPOSIT 0) donatedPool

/-- The state after withdrawing exactly the shares that deposit minted. -/
def donatedPool2 : PoolState :=
  okOr (withdraw donatedPool1 7
    (donatedPool1.totalShares - donatedPool.totalShares)) donatedPool1

/-- C7 counterexample: on the share-less pool holding a donated balance
of 1000, depositing `MIN_DEPOSIT` and withdrawing the freshly minted
shares returns `MIN_DEPOSIT + 1000` — strictly more than the deposit,
refuting the claim's bound over every pool state. -/
theorem roundtrip_returns_extra_cex :
    isOk (deposit donatedPool 7 MIN_DEPOSIT 0) = true ∧
    isOk (withdraw donatedPool1 7
      (donatedPool1.totalShares - donatedPool.totalShares)) = true ∧
    donatedPool1.balance - donatedPool2.balance = MIN_DEPOSIT + 1000 ∧
    MIN_DEPOSIT < MIN_DEPOSIT + 1000 :=
  ⟨rfl, rfl, by decide, by decide⟩

/-- Rounding to 2 decimal places is monotone. -/
theorem round2_mono {x y : ℚ} (h : x ≤ y) : round2 x ≤ round2 y := by
  unfold round2 jsRound
  have hf : ⌊x * 100 + 1 / 2⌋ ≤ ⌊y * 100 + 1 / 2⌋ :=
    Int.floor_le_floor (by linarith)
  have hc : ((⌊x * 100 + 1 / 2⌋ : ℤ) : ℚ) ≤ ((⌊y * 100 + 1 / 2⌋ : ℤ) : ℚ) :=
    Int.cast_le.mpr hf
  linarith

/-- Rounding preserves zero. -/
theorem round2_zero : round2 0 = 0 := by
  norm_num [round2, jsRound]

/-- Positivity fact used to instantiate the calculator theorems. -/
theorem q10000_pos : (0 : ℚ) < 10000 := by norm_num

/-- Nonpositivity fact used to instantiate the calculator theorems. -/
theorem qneg10000_nonpos : (-10000 : ℚ) ≤ 0 := by norm_num

/-- Nonnegativity fact used to instantiate the calculator theorems. -/
theorem q50_nonneg : (0 : ℚ) ≤ 50 := by norm_num

/-- C1 (amended): for faceValue > 0 and integer riskScore in [0,100] the
off-chain calculator uses `rate = 0.70 + (riskScore/100)*0.10`: the
returned fee is `round2(gross * 0.015)` for `gross = faceValue * rate`,
the returned advance is `round2(gross - gross * 0.015)` — the unrounded
fee is deducted before rounding (deducted from the advance, not added on
top), which can differ by one cent from deducting the rounded fee — the
returned percentage is the whole-percent rate, and the 10000/50 scenario
yields rate 75%, fee 112.50 and advance 7387.50. -/
theorem calculateFinancingAmount_terms (faceValue : ℚ) (riskScore : Nat)
    (_hf : 0 < faceValue) (_hr : riskScore ≤ 100) :
    (calculateFinancingAmount faceValue (riskScore : ℚ)).fee =
      round2 (faceValue * (70 / 100 + (riskScore : ℚ) / 100 * (10 / 100)) *
        (15 / 1000)) ∧
    (calculateFinancingAmount faceValue (riskScore : ℚ)).amount =
      round2 (faceValue * (70 / 100 + (riskScore : ℚ) / 100 * (10 / 100)) *
        (985 / 1000)) ∧
    (calculateFinancingAmount faceValue (riskScore : ℚ)).percentage =
      jsRound ((70 / 100 + (riskScore : ℚ) / 100 * (10 / 100)) * 100) ∧
    calculateFinancingAmount 10000 50 =
      { amount := 73875 / 10, percentage := 75, fee := 1125 / 10 } := by
  refine ⟨rfl, congrArg round2 (by ring), rfl, ?_⟩
  norm_num [calculateFinancingAmount, round2, jsRound]

/-- Witness for C1 at faceValue 10000, riskScore 50. -/
theorem calculateFinancingAmount_terms_w :
    (calculateFinancingAmount 10000 ((50 : Nat) : ℚ)).fee =
      round2 (10000 * (70 / 100 + ((50 : Nat) : ℚ) / 100 * (10 / 100)) *
        (15 / 1000)) ∧
    (calculateFinancingAmount 10000 ((50 : Nat) : ℚ)).amount =
      round2 (10000 * (70 / 100 + ((50 : Nat) : ℚ) / 100 * (10 / 100)) *
        (985 / 1000)) ∧
    (calculateFinancingAmount 10000 ((50 : Nat) : ℚ)).percentage =
      jsRound ((70 / 100 + ((50 : Nat) : ℚ) / 100 * (10 / 100)) * 100) ∧
    calculateFinancingAmount 10000 50 =
      { amount := 73875 / 10, percentage := 75, fee := 1125 / 10 } :=
  calculateFinancingAmount_terms 10000 50 q10000_pos (by decide)

/-- C1 counterexample: at faceValue 4, riskScore 50 the gross advance is
3.00 and the rounded fee 0.05, so deducting the rounded fee would give
`round2 (3.00 - 0.05) = 2.95`, but the code deducts the unrounded fee
0.045 and returns `round2 2.955 = 2.96`. -/
theorem calculateFinancingAmount_rounded_fee_cex :
    (calculateFinancingAmount 4 50).fee = 5 / 100 ∧
    (calculateFinancingAmount 4 50).amount = 296 / 100 ∧
    round2 (4 * (75 / 100) - 5 / 100) = 295 / 100 ∧
    (296 / 100 : ℚ) ≠ 295 / 100 := by
  refine ⟨?_, ?_, ?_, by norm_num⟩ <;>
    norm_num [calculateFinancingAmount, round2, jsRound]

/-- C8 (amended): the off-chain calculator performs no input validation —
its return type has no error channel, a non-positive face value flows
through the formula to a non-positive quote instead of an invalid-input
error, and an out-of-range risk score is used as-is (riskScore 200 yields
a 90% rate rather than an error). -/
theorem calculateFinancingAmount_no_validation (f r : ℚ)
    (hf : f ≤ 0) (hr : 0 ≤ r) :
    (calculateFinancingAmount f r).amount ≤ 0 ∧
    (calculateFinancingAmount f r).fee ≤ 0 ∧
    (calculateFinancingAmount 10000 200).percentage = 90 := by
  have hrate : (0 : ℚ) ≤ 70 / 100 + r / 100 * (10 / 100) := by
    have : (0 : ℚ) ≤ r / 100 * (10 / 100) := by positivity
    linarith
  have hfr : f * (70 / 100 + r / 100 * (10 / 100)) ≤ 0 :=
    mul_nonpos_of_nonpos_of_nonneg hf hrate
  refine ⟨?_, ?_, ?_⟩
  · calc (calculateFinancingAmount f r).amount
        = round2 (f * (70 / 100 + r / 100 * (10 / 100)) -
            f * (70 / 100 + r / 100 * (10 / 100)) * (15 / 1000)) := rfl
      _ ≤ round2 0 := round2_mono (by nlinarith)
      _ = 0 := round2_zero
  · calc (calculateFinancingAmount f r).fee
        = round2 (f * (70 / 100 + r / 100 * (10 / 100)) * (15 / 1000)) := rfl
      _ ≤ round2 0 := round2_mono (by nlinarith)
      _ = 0 := round2_zero
  · norm_num [calculateFinancingAmount, jsRound]

/-- Witness for C8 at faceValue −10000, riskScore 50. -/
theorem calculateFinancingAmount_no_validation_w :
    (calculateFinancingAmount (-10000) 50).amount ≤ 0 ∧
    (calculateFinancingAmount (-10000) 50).fee ≤ 0 ∧
    (calculateFinancingAmount 10000 200).percentage = 90 :=
  calculateFinancingAmount_no_validation (-10000) 50 qneg10000_nonpos
    q50_nonneg

/-- C8 counterexample: at faceValue −10000 the calculator returns a fully
computed quote of negative money amounts — no invalid-input error — and
at riskScore 200 it computes a 90% rate from the out-of-range value. -/
theorem calculateFinancingAmount_invalid_input_cex :
    calculateFinancingAmount (-10000) 50 =
      { amount := -(73875 / 10), percentage := 75, fee := -(1125 / 10) } ∧
    (calculateFinancingAmount 10000 200).percentage = 90 := by
  constructor <;> norm_num [calculateFinancingAmount, round2, jsRound]

/-- C9: the finance route's `aiRiskScore || 50` fallback conflates a
stored score of 0 with a missing score — both become the default 50 — so
a verified invoice with `aiRiskScore = 0` is financed on exactly the same
terms as one with `aiRiskScore = 50`, whatever its face amount. -/
theorem finance_route_zero_score_defaults (inv : SInvoice) (bid now : Nat)
    (hown : inv.businessId = bid) (hst : inv.status = SStatus.verified) :
    effectiveRiskScore (some 0) = 50 ∧
    effectiveRiskScore none = 50 ∧
    Except.map Prod.snd
      (financeRoute (some { inv with aiRiskScore := some 0 })
        (some bid) now) =
    Except.map Prod.snd
      (financeRoute (some { inv with aiRiskScore := some 50 })
        (some bid) now) := by
  refine ⟨rfl, rfl, ?_⟩
  simp [financeRoute, hown, hst, effectiveRiskScore, Except.map]

/-- A verified server-side invoice owned by business 3. -/
def verifiedInv : SInvoice :=
  { businessId := 3
    amount := 10000
    status := SStatus.verified
    aiRiskScore := some 0
    aiVerificationResult := none
    financedAmount := none
    financedAt := none
    repaidAt := none }

/-- Witness for C9 on `verifiedInv`. -/
theorem finance_route_zero_score_defaults_w :
    effectiveRiskScore (some 0) = 50 ∧
    effectiveRiskScore none = 50 ∧
    Except.map Prod.snd
      (financeRoute (some { verifiedInv with aiRiskScore := some 0 })
        (some 3) 8) =
    Except.map Prod.snd
      (financeRoute (some { verifiedInv with aiRiskScore := some 50 })
        (some 3) 8) :=
  finance_route_zero_score_defaults verifiedInv 3 8 rfl rfl

/-- C4 (amended): the verify route never consults the invoice's current
status — for every invoice that exists and is owned by the caller it
stores the assessment and sets the status to `rejected` iff the
recommendation is `reject` and to `verified` otherwise, whatever status
the invoice had; a repeated verify therefore overwrites the earlier
decision instead of failing with an invalid-state error. -/
theorem verify_decides_by_recommendation (inv : SInvoice) (bid : Nat)
    (risk : RiskAssessment) (hown : inv.businessId = bid) :
    verifyRoute (some inv) (some bid) risk = Except.ok { inv with
      aiRiskScore := some risk.overallScore
      aiVerificationResult := some risk
      status := if risk.recommendation = Recommendation.reject
        then SStatus.rejected else SStatus.verified } ∧
    ((okOr (verifyRoute (some inv) (some bid) risk) inv).status =
        SStatus.rejected ↔
      risk.recommendation = Recommendation.reject) := by
  have h1 : verifyRoute (some inv) (some bid) risk = Except.ok { inv with
      aiRiskScore := some risk.overallScore
      aiVerificationResult := some risk
      status := if risk.recommendation = Recommendation.reject
        then SStatus.rejected else SStatus.verified } := by
    simp [verifyRoute, hown]
  refine ⟨h1, ?_⟩
  rw [h1]
  rcases hrec : risk.recommendation <;> simp [okOr, hrec]

/-- An already-financed server-side invoice owned by business 3. -/
def financedInv : SInvoice :=
  { businessId := 3
    amount := 10000
    status := SStatus.financed
    aiRiskScore := some 80
    aiVerificationResult := none
    financedAmount := some (73875 / 10)
    financedAt := some 1
    repaidAt := none }

/-- Witness for C4: re-verifying the financed invoice with a `reject`
recommendation overwrites its status to `rejected`. -/
theorem verify_decides_by_recommendation_w :
    verifyRoute (some financedInv) (some 3)
      { overallScore := 20, recommendation := Recommendation.reject } =
      Except.ok { financedInv with
        aiRiskScore := some 20
        aiVerificationResult := some
          { overallScore := 20, recommendation := Recommendation.reject }
        status := SStatus.rejected } ∧
    ((okOr (verifyRoute (some financedInv) (some 3)
        { overallScore := 20, recommendation := Recommendation.reject })
        financedInv).status = SStatus.rejected ↔
      Recommendation.reject = Recommendation.reject) :=
  verify_decides_by_recommendation financedInv 3
    { overallScore := 20, recommendation := Recommendation.reject } rfl

/-- C4 counterexample: verifying an invoice whose status is `financed`
(not `Pending`) succeeds and overwrites the status to `verified`, instead
of failing with the invalid-state error the claim requires for every
non-`Pending` invoice. -/
theorem verify_financed_invoice_cex :
    financedInv.status = SStatus.financed ∧
    verifyRoute (some financedInv) (some 3)
      { overallScore := 90, recommendation := Recommendation.approve } =
      Except.ok { financedInv with
        aiRiskScore := some 90
        aiVerificationResult := some
          { overallScore := 90, recommendation := Recommendation.approve }
        status := SStatus.verified } :=
  ⟨rfl, rfl⟩

end InvoiceFin
